import Mathlib

/-!
Shallow embedding of `src/providers/sh/commands/billing.js` from now-cli:
the `billing` subcommand handler (list / set-default / rm / add) and its
helper `buildInquirerChoices`.

Modelling conventions, matching the JavaScript source:
  * `chalk` colour wrappers are the identity on strings (pure presentation).
  * Wall-clock elapsed-time interpolations (`ms(new Date() - start)` inside
    `chalk.gray(...)`) are abstracted as the fixed token "[elapsed]": real
    time is not representable, and no claim concerns the timing text.
  * Error stack traces are abstracted: the "Unknown error" message carries
    the error text instead of a stack.
  * The external world (API client results, prompt answers) is a `World`
    record consumed by the handler exactly at the points where the source
    awaits the corresponding promise.
  * JavaScript exceptions (the `consoel` ReferenceError at line 237 of the
    source, `TypeError` on property access of `undefined`, and rejected
    awaited promises that the source does not catch) end the run with
    `thrown = some e`; they propagate out of `run` to `main`, modelled by
    `mainWrap`.
-/

namespace Billing

/-- A credit card as fetched from the API (`cards.cards[i]` in the source). -/
structure Card where
  id : String
  brand : String
  last4 : String
  name : String
  address_line1 : String
  address_line2 : Option String
  address_city : String
  address_state : Option String
  address_zip : String
  address_country : String
deriving DecidableEq

/-- The collection returned by `creditCards.ls()`: `{cards, defaultCardId}`.
`defaultCardId` is `none` when the account has no default card (JS `null`). -/
structure CardCollection where
  cards : List Card
  defaultCardId : Option String
deriving DecidableEq

/-- An error surfaced by the API client: `message` plus the `userError` flag
that `main` inspects in its catch block. -/
structure ApiErr where
  message : String
  userError : Bool
deriving DecidableEq

/-- A JavaScript exception escaping `run`: a ReferenceError (the `consoel`
typo), a TypeError (property access on `undefined`), or a rejected API
promise that `run` does not catch. -/
inductive JsErr where
  | refError (msg : String)
  | typeError (msg : String)
  | apiErr (e : ApiErr)
deriving DecidableEq

/-- Network/API-client requests made during a run, in order.  `close()` is
accounted separately (`Trace.closeCalls`) since it releases the connection
rather than issuing a request.  `add` records the delegation to the
external add-card handler. -/
inductive ApiCall where
  | ls
  | setDefault (id : String)
  | rm (id : String)
  | add
deriving DecidableEq

/-- A printed line: `err s` is `console.error(error(s))`, `log s` is a plain
`console.log`, `success s` is `console.log(success(s))`, `info s` is
`console.log(info(s))`. -/
inductive OutLine where
  | err (s : String)
  | log (s : String)
  | success (s : String)
  | info (s : String)
deriving DecidableEq

/-- Interactive prompts shown, in order: `select` is the `listInput`
single-choice prompt, `confirm` is the `promptBool` yes/no prompt. -/
inductive PromptEv where
  | select
  | confirm
deriving DecidableEq

/-- The external world consumed by one run: results of the first and second
`creditCards.ls()` calls, the `listInput` selection (`none` models the
abort signal — modelled from the spec, the prompt utility is not under
src), the `promptBool` answer, the results of the mutating calls
(`none` = resolved, `some e` = rejected), and the owner display string
`(currentTeam && currentTeam.slug) || user.username || user.email`. -/
structure World where
  ls1 : Except ApiErr CardCollection
  ls2 : Except ApiErr CardCollection
  listInput : Option String
  promptBool : Bool
  setDefaultResult : Option ApiErr
  rmResult : Option ApiErr
  owner : String

/-- Everything observable about one run of the handler.  `exitCode` records
the argument of the (single, if any) call to the `exit` utility — modelled
from the spec: the `exit` helper is not under src and terminates the
process with that status. -/
structure Trace where
  calls : List ApiCall := []
  out : List OutLine := []
  prompts : List PromptEv := []
  helpShown : Bool := false
  exitCode : Option Nat := none
  closeCalls : Nat := 0
  thrown : Option JsErr := none
deriving DecidableEq

/-- Modelled from the spec: the `indent` output helper (`util/indent`, not
under src) prefixes every line of the text with `n` spaces.  Structural
worker over the character list. -/
def indentChars (n : Nat) : List Char → List Char
  | [] => []
  | c :: t =>
    if c = '\n' then c :: (List.replicate n ' ' ++ indentChars n t)
    else c :: indentChars n t

/-- Modelled from the spec: `indent(s, n)` — each line of `s` prefixed with
`n` spaces. -/
def indentStr (s : String) (n : Nat) : String :=
  ⟨List.replicate n ' ' ++ indentChars n s.data⟩

/-- JavaScript `s.repeat(n)`. -/
def strRepeat (s : String) : Nat → String
  | 0 => ""
  | n + 1 => s ++ strRepeat s n

/-- Modelled from the spec: the `pluralize` package call at source line 179
— the count followed by the possibly pluralized word. -/
def pluralCards (n : Nat) : String :=
  toString n ++ (if n = 1 then " card" else " cards")

/-- The masked card number (source lines 111 and 148): three masked groups
followed by `card.last4` — only the last four digits are shown. -/
def numberText (card : Card) : String :=
  strRepeat "#### " 3 ++ card.last4

/-- The id line of the `ls` rendering (source lines 143–147): a dash, the
id, and the `(default)` marker exactly when `card.id === cards.defaultCardId`. -/
def lsIdLine (cards : CardCollection) (card : Card) : String :=
  "- " ++ "ID: " ++ card.id ++
    (if cards.defaultCardId = some card.id then " (default)" else "")

/-- The address block of the `ls` rendering (source lines 149–165):
line1 (with line2 appended when present), then a newline, then city,
optional state, zip and country. -/
def addressText (card : Card) : String :=
  let a1 := card.address_line1 ++
    (match card.address_line2 with
     | some l2 => ", " ++ l2 ++ "."
     | none => ".")
  let a2 := a1 ++ "\n" ++ card.address_city ++ ", "
  let a3 := a2 ++
    (match card.address_state with
     | some st => st ++ ", "
     | none => "")
  a3 ++ card.address_zip ++ ". " ++ card.address_country

/-- The block of one card in the `ls` output (source lines 142–173): id line,
indented name, indented brand + masked number, indented address, joined by
newlines. -/
def lsCardText (cards : CardCollection) (card : Card) : String :=
  String.intercalate "\n"
    [lsIdLine cards card,
     indentStr card.name 2,
     indentStr (card.brand ++ " " ++ numberText card) 2,
     indentStr (addressText card) 2]

/-- An inquirer choice `{name, value, short}` (source lines 118–122). -/
structure Choice where
  name : String
  value : String
  short : String
deriving DecidableEq

/-- `buildInquirerChoices(cards)` (source lines 106–124): one choice per
card, label = id plus default marker, indented cardholder name, indented
brand and masked number; `value` and `short` are the card id. -/
def buildInquirerChoices (cards : CardCollection) : List Choice :=
  cards.cards.map (fun card =>
    let dmark := if cards.defaultCardId = some card.id then " (default)" else ""
    let idStr := "ID: " ++ card.id ++ dmark
    let str := String.intercalate "\n"
      [idStr,
       indentStr card.name 2,
       indentStr (card.brand ++ " " ++ numberText card) 2]
    { name := str, value := card.id, short := card.id })

/-- `let cardId = args[0]; if (cardId === undefined) cardId = await
listInput(...)` (source lines 212–227 and 282–299): the resolved candidate
and the prompts shown while resolving it. -/
def resolveCardId (w : World) (args : List String) : Option String × List PromptEv :=
  match args.head? with
  | some a => (some a, [])
  | none => (w.listInput, [PromptEv.select])

/-- The `set-default` case of the switch (source lines 191–255).  The
second component is `true` when control falls through to the `break`, so
that line 362 (`creditCards.close()`) runs.  The `consoel.log` typo at
source line 237 is modelled as the ReferenceError it throws. -/
def setDefaultCase (w : World) (args : List String) : Trace × Bool :=
  if 1 < args.length then
    ({ out := [.err "Invalid number of arguments"], exitCode := some 1 }, false)
  else
    match w.ls1 with
    | .error e => ({ calls := [.ls], out := [.err e.message] }, false)
    | .ok cards =>
      if cards.cards.length = 0 then
        ({ calls := [.ls], out := [.err "You have no credit cards to choose from"],
           exitCode := some 0 }, false)
      else
        let r := resolveCardId w args
        match r.1 with
        | none => ({ calls := [.ls], prompts := r.2, out := [.log "No changes made"] }, true)
        | some id =>
          if id = "" then
            ({ calls := [.ls], prompts := r.2, out := [.log "No changes made"] }, true)
          else
            if w.promptBool then
              match w.setDefaultResult with
              | some e =>
                ({ calls := [.ls, .setDefault id], prompts := r.2 ++ [.confirm],
                   thrown := some (.apiErr e) }, false)
              | none =>
                match cards.cards.find? (fun c => c.id == id) with
                | none =>
                  ({ calls := [.ls, .setDefault id], prompts := r.2 ++ [.confirm],
                     thrown := some (.typeError "Cannot read property brand of undefined") },
                   false)
                | some card =>
                  ({ calls := [.ls, .setDefault id], prompts := r.2 ++ [.confirm],
                     out := [.success (card.brand ++ " ending in " ++ card.last4 ++
                       " is now the default " ++ "[elapsed]")] }, true)
            else
              ({ calls := [.ls], prompts := r.2 ++ [.confirm],
                 thrown := some (.refError "consoel is not defined") }, false)

/-- The `rm`/`remove` case of the switch (source lines 257–344). -/
def rmCase (w : World) (args : List String) : Trace × Bool :=
  if 1 < args.length then
    ({ out := [.err "Invalid number of arguments"], exitCode := some 1 }, false)
  else
    match w.ls1 with
    | .error e => ({ calls := [.ls], out := [.err e.message] }, false)
    | .ok cards =>
      if cards.cards.length = 0 then
        ({ calls := [.ls],
           out := [.err ("You have no credit cards to choose from to delete under " ++ w.owner)],
           exitCode := some 0 }, false)
      else
        let r := resolveCardId w args
        match r.1 with
        | none => ({ calls := [.ls], prompts := r.2, out := [.log "No changes made"] }, true)
        | some id =>
          if id = "" then
            ({ calls := [.ls], prompts := r.2, out := [.log "No changes made"] }, true)
          else
            if w.promptBool then
              match w.rmResult with
              | some e =>
                ({ calls := [.ls, .rm id], prompts := r.2 ++ [.confirm],
                   thrown := some (.apiErr e) }, false)
              | none =>
                match cards.cards.find? (fun c => c.id == id) with
                | none =>
                  ({ calls := [.ls, .rm id], prompts := r.2 ++ [.confirm],
                     thrown := some (.typeError "Cannot read property brand of undefined") },
                   false)
                | some dc =>
                  let deletedText := dc.brand ++ " ending in " ++ dc.last4 ++ " was deleted"
                  let remainingCards := cards.cards.filter (fun c => !(c.id == id))
                  if cards.defaultCardId = some id then
                    if remainingCards.length = 0 then
                      ({ calls := [.ls, .rm id], prompts := r.2 ++ [.confirm],
                         out := [.success (deletedText ++
                           "\nWarning! You have no default card" ++ " [elapsed]")] }, true)
                    else
                      match w.ls2 with
                      | .error e =>
                        ({ calls := [.ls, .rm id, .ls], prompts := r.2 ++ [.confirm],
                           thrown := some (.apiErr e) }, false)
                      | .ok cards2 =>
                        match cards2.cards.find? (fun c => some c.id == cards2.defaultCardId) with
                        | none =>
                          ({ calls := [.ls, .rm id, .ls], prompts := r.2 ++ [.confirm],
                             thrown := some (.typeError "Cannot read property brand of undefined") },
                           false)
                        | some nd =>
                          ({ calls := [.ls, .rm id, .ls], prompts := r.2 ++ [.confirm],
                             out := [.success (deletedText ++ "\n" ++ nd.brand ++
                               " ending in " ++ nd.last4 ++ " in now default for " ++
                               w.owner ++ " [elapsed]")] }, true)
                  else
                    ({ calls := [.ls, .rm id], prompts := r.2 ++ [.confirm],
                       out := [.success (deletedText ++ " [elapsed]")] }, true)
            else
              ({ calls := [.ls], prompts := r.2 ++ [.confirm],
                 out := [.log "Aborted"] }, true)

/-- The `ls`/`list` case of the switch (source lines 132–189). -/
def lsCase (w : World) : Trace × Bool :=
  match w.ls1 with
  | .error e => ({ calls := [.ls], out := [.err e.message] }, false)
  | .ok cards =>
    let text := String.intercalate "\n\n" (cards.cards.map (lsCardText cards))
    let header := "> " ++ pluralCards cards.cards.length ++ " found under " ++
      w.owner ++ " [elapsed]"
    if text = "" then ({ calls := [.ls], out := [.log header] }, true)
    else ({ calls := [.ls], out := [.log header, .log ("\n" ++ text ++ "\n")] }, true)

/-- The switch statement of `run` (source lines 131–360): dispatch on the
subcommand name.  The default case prints the error, shows help and calls
`exit(1)` without returning, so it still reaches `close()`. -/
def dispatch (w : World) (sub : String) (args : List String) : Trace × Bool :=
  if sub = "ls" ∨ sub = "list" then lsCase w
  else if sub = "set-default" then setDefaultCase w args
  else if sub = "rm" ∨ sub = "remove" then rmCase w args
  else if sub = "add" then ({ calls := [.add] }, true)
  else
    ({ out := [.err "Please specify a valid subcommand: ls | add | rm | set-default"],
       helpShown := true, exitCode := some 1 }, true)

/-- Source line 362: `creditCards.close()` runs exactly when control falls
out of the switch (second component `true`); the early `return`s and any
propagating exception skip it. -/
def applyClose (c : Trace × Bool) : Trace :=
  { c.1 with closeCalls := if c.2 then 1 else 0 }

/-- `run({token, sh})` (source lines 126–363) for a given subcommand and
its positional arguments (`argv._.slice(1)`). -/
def run (w : World) (sub : String) (args : List String) : Trace :=
  applyClose (dispatch w sub args)

/-- The catch block of `main` (source lines 83–93): an exception escaping
`run` is printed — `err.message` when `err.userError`, otherwise an
"Unknown error" report — and the process exits with code 1. -/
def mainWrap (t : Trace) : Trace :=
  match t.thrown with
  | none => t
  | some e =>
    let msg := match e with
      | .apiErr a => if a.userError then a.message else "Unknown error: " ++ a.message
      | .refError m => "Unknown error: " ++ m
      | .typeError m => "Unknown error: " ++ m
    { t with out := t.out ++ [.err msg], exitCode := some 1 }

/-- Substring test on character lists (`hasSubstr hay pat` is true when
`pat` occurs contiguously inside `hay`), used to state what a printed
report does or does not mention. -/
def hasSubstr : List Char → List Char → Bool
  | [], pat => pat.isEmpty
  | c :: t, pat => pat.isPrefixOf (c :: t) || hasSubstr t pat

/-- Count of newline characters in a string: `countNL s + 1` is the number
of lines `s` renders as. -/
def countNL (s : String) : Nat :=
  s.data.count '\n'

/- Concrete fixtures used by counterexamples and witnesses. -/

/-- A card with no `address_line2` and no `address_state`. -/
def cardA : Card :=
  { id := "card_a", brand := "Visa", last4 := "4242", name := "Ann Ard",
    address_line1 := "1 Main St", address_line2 := none,
    address_city := "Springfield", address_state := some "CA",
    address_zip := "90000", address_country := "US" }

/-- A card with an `address_line2`. -/
def cardB : Card :=
  { id := "card_b", brand := "Mastercard", last4 := "1111", name := "Bob Beck",
    address_line1 := "2 Side St", address_line2 := some "Apt 3",
    address_city := "Shelby", address_state := none,
    address_zip := "10000", address_country := "US" }

/-- Two cards, `card_a` is the default. -/
def colAB : CardCollection :=
  { cards := [cardA, cardB], defaultCardId := some "card_a" }

/-- Only `card_b` remains and the server made it the default. -/
def colB : CardCollection :=
  { cards := [cardB], defaultCardId := some "card_b" }

/-- A world whose confirmation prompt is answered "no". -/
def wDecline : World :=
  { ls1 := .ok colAB, ls2 := .ok colB, listInput := none, promptBool := false,
    setDefaultResult := none, rmResult := none, owner := "acme" }

/-- A world whose confirmation prompt is answered "yes". -/
def wConfirm : World :=
  { ls1 := .ok colAB, ls2 := .ok colB, listInput := none, promptBool := true,
    setDefaultResult := none, rmResult := none, owner := "acme" }

end Billing

namespace Billing

/-- Claim C7: for set-default or remove with two or more positional
arguments, an error is printed, the exit code is 1, and no API call (not
even the list fetch) and no prompt occurs. -/
theorem claim_C7 (w : World) (sub : String) (args : List String)
    (hsub : sub = "set-default" ∨ sub = "rm" ∨ sub = "remove")
    (hargs : 1 < args.length) :
    (run w sub args).out = [OutLine.err "Invalid number of arguments"]
    ∧ (run w sub args).exitCode = some 1
    ∧ (run w sub args).calls = []
    ∧ (run w sub args).prompts = [] := by
  rcases hsub with h | h | h <;> subst h <;>
    simp [run, dispatch, applyClose, setDefaultCase, rmCase, hargs]

theorem claim_C7_witness :
    (run wDecline "rm" ["a", "b"]).out = [OutLine.err "Invalid number of arguments"]
    ∧ (run wDecline "rm" ["a", "b"]).exitCode = some 1
    ∧ (run wDecline "rm" ["a", "b"]).calls = []
    ∧ (run wDecline "rm" ["a", "b"]).prompts = [] :=
  claim_C7 wDecline "rm" ["a", "b"] (Or.inr (Or.inl rfl)) (by decide)

/-- Claim C10: an unrecognized subcommand prints an error, shows the help
text, exits with code 1, and invokes no handler and no API request. -/
theorem claim_C10 (w : World) (sub : String) (args : List String)
    (hsub : sub ≠ "ls" ∧ sub ≠ "list" ∧ sub ≠ "set-default" ∧ sub ≠ "rm" ∧
      sub ≠ "remove" ∧ sub ≠ "add") :
    (run w sub args).out =
      [OutLine.err "Please specify a valid subcommand: ls | add | rm | set-default"]
    ∧ (run w sub args).helpShown = true
    ∧ (run w sub args).exitCode = some 1
    ∧ (run w sub args).calls = [] := by
  obtain ⟨h1, h2, h3, h4, h5, h6⟩ := hsub
  simp [run, dispatch, applyClose, h1, h2, h3, h4, h5, h6]

theorem claim_C10_witness :
    (run wDecline "foo" []).out =
      [OutLine.err "Please specify a valid subcommand: ls | add | rm | set-default"]
    ∧ (run wDecline "foo" []).helpShown = true
    ∧ (run wDecline "foo" []).exitCode = some 1
    ∧ (run wDecline "foo" []).calls = [] :=
  claim_C10 wDecline "foo" [] (by decide)

end Billing

namespace Billing

/-- Claim C5: set-default or remove against an empty collection prints the
"no cards" report, exits with code 0, shows no interactive prompt, and
makes no mutating API call (the only API request is the list fetch). -/
theorem claim_C5 (w : World) (sub : String) (args : List String) (col : CardCollection)
    (hsub : sub = "set-default" ∨ sub = "rm" ∨ sub = "remove")
    (hargs : args.length ≤ 1)
    (hls : w.ls1 = Except.ok col)
    (hempty : col.cards.length = 0) :
    (run w sub args).exitCode = some 0
    ∧ (run w sub args).prompts = []
    ∧ (run w sub args).calls = [ApiCall.ls]
    ∧ (sub = "set-default" →
        (run w sub args).out = [OutLine.err "You have no credit cards to choose from"])
    ∧ ((sub = "rm" ∨ sub = "remove") →
        (run w sub args).out =
          [OutLine.err ("You have no credit cards to choose from to delete under " ++ w.owner)]) := by
  have hno : ¬ 1 < args.length := by omega
  rcases hsub with h | h | h <;> subst h <;>
    simp [run, dispatch, applyClose, setDefaultCase, rmCase, hno, hls, hempty]

theorem claim_C5_witness :
    (run { wDecline with ls1 := Except.ok { cards := [], defaultCardId := none } }
        "set-default" []).exitCode = some 0
    ∧ (run { wDecline with ls1 := Except.ok { cards := [], defaultCardId := none } }
        "set-default" []).prompts = []
    ∧ (run { wDecline with ls1 := Except.ok { cards := [], defaultCardId := none } }
        "set-default" []).calls = [ApiCall.ls] := by
  have h := claim_C5 { wDecline with ls1 := Except.ok { cards := [], defaultCardId := none } }
    "set-default" [] { cards := [], defaultCardId := none }
    (Or.inl rfl) (by decide) rfl rfl
  exact ⟨h.1, h.2.1, h.2.2.1⟩

/-- Claim C6: set-default or remove with no positional argument over a
non-empty collection, with the interactive selection aborted, prints
"No changes made", shows no confirmation prompt, and makes no mutating
API call. -/
theorem claim_C6 (w : World) (sub : String) (col : CardCollection)
    (hsub : sub = "set-default" ∨ sub = "rm" ∨ sub = "remove")
    (hls : w.ls1 = Except.ok col)
    (hne : col.cards ≠ [])
    (habort : w.listInput = none) :
    (run w sub []).out = [OutLine.log "No changes made"]
    ∧ (run w sub []).prompts = [PromptEv.select]
    ∧ (run w sub []).calls = [ApiCall.ls]
    ∧ (run w sub []).thrown = none := by
  have h0 : ¬ col.cards.length = 0 := by simpa [List.length_eq_zero] using hne
  rcases hsub with h | h | h <;> subst h <;>
    simp [run, dispatch, applyClose, setDefaultCase, rmCase, resolveCardId,
      hls, h0, habort]

theorem claim_C6_witness :
    (run wDecline "set-default" []).out = [OutLine.log "No changes made"]
    ∧ (run wDecline "set-default" []).prompts = [PromptEv.select]
    ∧ (run wDecline "set-default" []).calls = [ApiCall.ls]
    ∧ (run wDecline "set-default" []).thrown = none :=
  claim_C6 wDecline "set-default" colAB (Or.inl rfl) rfl (by decide) rfl

end Billing

namespace Billing

/-- Claim C2 counterexample: on the invalid-argument-count early return of
set-default, the run ends (exit code 1 recorded) without `close()` ever
being called — refuting "close() is called exactly once on every exit
path, including the early-return branches". -/
theorem claim_C2_counterexample :
    (run wDecline "set-default" ["a", "b"]).exitCode = some 1
    ∧ (run wDecline "set-default" ["a", "b"]).closeCalls = 0
    ∧ (run wDecline "set-default" ["a", "b"]).closeCalls ≠ 1 := by decide

/-- The `ls` case never throws: every branch leaves `thrown` empty. -/
theorem lsCase_thrown (w : World) : (lsCase w).1.thrown = none := by
  simp only [lsCase]
  repeat' split
  all_goals rfl

/-- An exception escaping the set-default case skips the break at the end
of the switch. -/
theorem setDefaultCase_thrown (w : World) (args : List String)
    (h : (setDefaultCase w args).1.thrown.isSome) :
    (setDefaultCase w args).2 = false := by
  revert h
  simp only [setDefaultCase]
  repeat' split
  all_goals simp

set_option maxHeartbeats 1000000 in
/-- An exception escaping the rm case skips the break at the end of the
switch. -/
theorem rmCase_thrown (w : World) (args : List String)
    (h : (rmCase w args).1.thrown.isSome) :
    (rmCase w args).2 = false := by
  revert h
  simp only [rmCase]
  repeat' split
  all_goals simp

/-- A set-default run over a successfully fetched non-empty collection
that throws nothing always reaches the break (and hence `close()`). -/
theorem setDefaultCase_brk (w : World) (args : List String) (col : CardCollection)
    (hno : ¬ 1 < args.length) (hls : w.ls1 = Except.ok col)
    (hne : ¬ col.cards.length = 0)
    (hth : (setDefaultCase w args).1.thrown = none) :
    (setDefaultCase w args).2 = true := by
  revert hth
  simp only [setDefaultCase, hls]
  simp only [if_neg hno, if_neg hne]
  repeat' split
  all_goals simp

set_option maxHeartbeats 1000000 in
/-- An rm run over a successfully fetched non-empty collection that throws
nothing always reaches the break (and hence `close()`). -/
theorem rmCase_brk (w : World) (args : List String) (col : CardCollection)
    (hno : ¬ 1 < args.length) (hls : w.ls1 = Except.ok col)
    (hne : ¬ col.cards.length = 0)
    (hth : (rmCase w args).1.thrown = none) :
    (rmCase w args).2 = true := by
  revert hth
  simp only [rmCase, hls]
  simp only [if_neg hno, if_neg hne]
  repeat' split
  all_goals simp

/-- Claim C2 (amended): `close()` is called at most once per run; it is
called zero times on the early-return branches — invalid argument count,
failed card-list fetch, empty collection — and whenever an exception
escapes the run, and exactly once on every other run: list over a fetched
collection, add, unrecognized subcommand, and set-default/rm/remove over
a fetched non-empty collection ending without an exception (no-selection,
declined-confirmation and successful-mutation paths alike). -/
theorem claim_C2 (w : World) (sub : String) (args : List String) :
    ((run w sub args).closeCalls ≤ 1)
    ∧ ((sub = "set-default" ∨ sub = "rm" ∨ sub = "remove") → 1 < args.length →
        (run w sub args).closeCalls = 0)
    ∧ (∀ e, (sub = "ls" ∨ sub = "list" ∨ sub = "set-default" ∨ sub = "rm" ∨ sub = "remove") →
        w.ls1 = Except.error e → (run w sub args).closeCalls = 0)
    ∧ (∀ col, (sub = "set-default" ∨ sub = "rm" ∨ sub = "remove") → args.length ≤ 1 →
        w.ls1 = Except.ok col → col.cards.length = 0 → (run w sub args).closeCalls = 0)
    ∧ ((sub ≠ "ls" ∧ sub ≠ "list" ∧ sub ≠ "set-default" ∧ sub ≠ "rm" ∧
        sub ≠ "remove" ∧ sub ≠ "add") → (run w sub args).closeCalls = 1)
    ∧ (sub = "add" → (run w sub args).closeCalls = 1)
    ∧ (∀ col, (sub = "ls" ∨ sub = "list") → w.ls1 = Except.ok col →
        (run w sub args).closeCalls = 1)
    ∧ (∀ col, (sub = "set-default" ∨ sub = "rm" ∨ sub = "remove") → args.length ≤ 1 →
        w.ls1 = Except.ok col → col.cards.length ≠ 0 → (run w sub args).thrown = none →
        (run w sub args).closeCalls = 1)
    ∧ ((run w sub args).thrown.isSome → (run w sub args).closeCalls = 0) := by
  refine ⟨?_, ?_, ?_, ?_, ?_, ?_, ?_, ?_, ?_⟩
  · cases h : (dispatch w sub args).2 <;> simp [run, applyClose, h]
  · rintro (h | h | h) hargs <;> subst h <;>
      simp [run, dispatch, applyClose, setDefaultCase, rmCase, hargs]
  · rintro e (h | h | h | h | h) hls <;> subst h <;>
      simp [run, dispatch, applyClose, lsCase, setDefaultCase, rmCase, hls] <;>
      split <;> simp
  · rintro col (h | h | h) hargs hls hempty <;> subst h <;>
      simp [run, dispatch, applyClose, setDefaultCase, rmCase, hls, hempty,
        Nat.not_lt.mpr hargs]
  · rintro ⟨h1, h2, h3, h4, h5, h6⟩
    simp [run, dispatch, applyClose, h1, h2, h3, h4, h5, h6]
  · rintro h; subst h; simp [run, dispatch, applyClose]
  · rintro col (h | h) hls <;> subst h <;>
      simp [run, dispatch, applyClose, lsCase, hls] <;> split <;> simp
  · rintro col (h | h | h) hargs hls hne hth <;> subst h
    · have hth2 : (setDefaultCase w args).1.thrown = none := by
        simpa [run, dispatch, applyClose] using hth
      have hb := setDefaultCase_brk w args col (Nat.not_lt.mpr hargs) hls
        (by simpa using hne) hth2
      simp [run, dispatch, applyClose, hb]
    · have hth2 : (rmCase w args).1.thrown = none := by
        simpa [run, dispatch, applyClose] using hth
      have hb := rmCase_brk w args col (Nat.not_lt.mpr hargs) hls
        (by simpa using hne) hth2
      simp [run, dispatch, applyClose, hb]
    · have hth2 : (rmCase w args).1.thrown = none := by
        simpa [run, dispatch, applyClose] using hth
      have hb := rmCase_brk w args col (Nat.not_lt.mpr hargs) hls
        (by simpa using hne) hth2
      simp [run, dispatch, applyClose, hb]
  · intro hth
    by_cases h1 : sub = "ls" ∨ sub = "list"
    · exfalso
      rcases h1 with h | h <;> subst h <;>
        simp [run, dispatch, applyClose, lsCase_thrown] at hth
    · by_cases h2 : sub = "set-default"
      · subst h2
        have hth2 : (setDefaultCase w args).1.thrown.isSome := by
          simpa [run, dispatch, applyClose] using hth
        have hb := setDefaultCase_thrown w args hth2
        simp [run, dispatch, applyClose, hb]
      · by_cases h3 : sub = "rm" ∨ sub = "remove"
        · rcases h3 with h | h <;> subst h
          · have hth2 : (rmCase w args).1.thrown.isSome := by
              simpa [run, dispatch, applyClose] using hth
            have hb := rmCase_thrown w args hth2
            simp [run, dispatch, applyClose, hb]
          · have hth2 : (rmCase w args).1.thrown.isSome := by
              simpa [run, dispatch, applyClose, h2] using hth
            have hb := rmCase_thrown w args hth2
            simp [run, dispatch, applyClose, h2, hb]
        · by_cases h4 : sub = "add"
          · subst h4
            exfalso
            simp [run, dispatch, applyClose] at hth
          · exfalso
            simp [run, dispatch, applyClose, h1, h2, h3, h4] at hth

theorem claim_C2_witness :
    (run { wDecline with ls1 := Except.error { message := "boom", userError := true } }
      "ls" []).closeCalls = 0 :=
  (claim_C2 { wDecline with ls1 := Except.error { message := "boom", userError := true } }
    "ls" []).2.2.1 { message := "boom", userError := true } (Or.inl rfl) rfl

end Billing

namespace Billing

/-- Claim C1 (code-bug evidence): with the confirmation answered "no", the
rm path aborts cleanly ("Aborted" logged, no rm call, nothing thrown), but
the set-default path hits the `consoel.log` typo (source line 237): a
ReferenceError escapes — no setDefault call is made, but instead of a
non-error message the run crashes and main reports "Unknown error" with
exit code 1. -/
theorem claim_C1 :
    (run wDecline "set-default" ["card_a"]).thrown =
      some (JsErr.refError "consoel is not defined")
    ∧ (run wDecline "set-default" ["card_a"]).calls = [ApiCall.ls]
    ∧ (run wDecline "set-default" ["card_a"]).out = []
    ∧ (mainWrap (run wDecline "set-default" ["card_a"])).exitCode = some 1
    ∧ (mainWrap (run wDecline "set-default" ["card_a"])).out =
        [OutLine.err "Unknown error: consoel is not defined"]
    ∧ (run wDecline "rm" ["card_a"]).out = [OutLine.log "Aborted"]
    ∧ (run wDecline "rm" ["card_a"]).calls = [ApiCall.ls]
    ∧ (run wDecline "rm" ["card_a"]).thrown = none := by decide

/-- Claim C4 counterexample: `set-default` invoked with exactly one
positional argument, the empty string, never reaches the confirmation
prompt (JavaScript truthiness at `if (cardId)`): no prompt, no mutating
call, "No changes made" — refuting "confirmation is shown" for every
single-argument invocation. -/
theorem claim_C4_counterexample :
    (run wConfirm "set-default" [""]).prompts = []
    ∧ (run wConfirm "set-default" [""]).calls = [ApiCall.ls]
    ∧ (run wConfirm "set-default" [""]).out = [OutLine.log "No changes made"] := by decide

/-- Claim C4 (amended): for set-default or remove with exactly one
non-empty positional argument naming no card of the fetched collection,
the id is still used as the target: the confirmation prompt is shown and,
on a positive answer, the mutating call is made with that id; the
subsequent display lookup finds no card and the run fails on the absent
metadata. -/
theorem claim_C4 (w : World) (sub : String) (id : String) (col : CardCollection)
    (hsub : sub = "set-default" ∨ sub = "rm" ∨ sub = "remove")
    (hid : id ≠ "")
    (hls : w.ls1 = Except.ok col)
    (hne : col.cards.length ≠ 0)
    (hconf : w.promptBool = true)
    (hsd : w.setDefaultResult = none)
    (hrm : w.rmResult = none)
    (hfind : col.cards.find? (fun c => c.id == id) = none) :
    (run w sub [id]).prompts = [PromptEv.confirm]
    ∧ (sub = "set-default" → (run w sub [id]).calls = [ApiCall.ls, ApiCall.setDefault id])
    ∧ ((sub = "rm" ∨ sub = "remove") → (run w sub [id]).calls = [ApiCall.ls, ApiCall.rm id])
    ∧ (run w sub [id]).thrown =
        some (JsErr.typeError "Cannot read property brand of undefined") := by
  rcases hsub with h | h | h <;> subst h <;>
    simp [run, dispatch, applyClose, setDefaultCase, rmCase, resolveCardId,
      hid, hls, hne, hconf, hsd, hrm, hfind]

theorem claim_C4_witness :
    (run wConfirm "set-default" ["ghost"]).prompts = [PromptEv.confirm]
    ∧ (run wConfirm "set-default" ["ghost"]).calls =
        [ApiCall.ls, ApiCall.setDefault "ghost"]
    ∧ (run wConfirm "set-default" ["ghost"]).thrown =
        some (JsErr.typeError "Cannot read property brand of undefined") := by
  have h := claim_C4 wConfirm "set-default" "ghost" colAB (Or.inl rfl) (by decide)
    rfl (by decide) rfl rfl rfl (by decide)
  exact ⟨h.1, h.2.1 rfl, h.2.2.2⟩

end Billing

namespace Billing

/-- Claim C3 counterexample: a confirmed removal of the default card with
another card remaining does perform exactly one additional fetch, but the
new default ("card_b", cardholder name "Bob Beck") is reported by brand
and last-4 digits only — the printed output never mentions the card name,
refuting "reported by name". -/
theorem claim_C3_counterexample :
    (run wConfirm "rm" ["card_a"]).calls = [ApiCall.ls, ApiCall.rm "card_a", ApiCall.ls]
    ∧ (run wConfirm "rm" ["card_a"]).out =
        [OutLine.success
          "Visa ending in 4242 was deleted\nMastercard ending in 1111 in now default for acme [elapsed]"]
    ∧ colB.cards.find? (fun c => some c.id == colB.defaultCardId) =
        some cardB
    ∧ cardB.name = "Bob Beck"
    ∧ hasSubstr
        ("Visa ending in 4242 was deleted\nMastercard ending in 1111 in now default for acme [elapsed]").data
        ("Bob Beck").data = false := by decide

/-- Claim C3 (amended): for every confirmed removal, if the removed card
was the default and at least one other card remains, exactly one
additional list fetch happens after the rm call and the re-fetched
server-assigned default is reported by brand and last-4 digits; if no
cards remain, the "no default card" warning is printed and there is no
additional fetch; if the removed card was not the default, there is no
additional fetch. -/
theorem claim_C3 (w : World) (sub : String) (id : String)
    (col col2 : CardCollection) (dc nd : Card)
    (hsub : sub = "rm" ∨ sub = "remove")
    (hid : id ≠ "")
    (hls : w.ls1 = Except.ok col)
    (hne : col.cards.length ≠ 0)
    (hconf : w.promptBool = true)
    (hrm : w.rmResult = none)
    (hfind : col.cards.find? (fun c => c.id == id) = some dc) :
    (col.defaultCardId = some id →
      (col.cards.filter (fun c => !(c.id == id))).length ≠ 0 →
      w.ls2 = Except.ok col2 →
      col2.cards.find? (fun c => some c.id == col2.defaultCardId) = some nd →
      (run w sub [id]).calls = [ApiCall.ls, ApiCall.rm id, ApiCall.ls]
      ∧ (run w sub [id]).out =
          [OutLine.success (dc.brand ++ " ending in " ++ dc.last4 ++ " was deleted" ++
            "\n" ++ nd.brand ++ " ending in " ++ nd.last4 ++ " in now default for " ++
            w.owner ++ " [elapsed]")])
    ∧ (col.defaultCardId = some id →
        (col.cards.filter (fun c => !(c.id == id))).length = 0 →
        (run w sub [id]).calls = [ApiCall.ls, ApiCall.rm id]
        ∧ (run w sub [id]).out =
            [OutLine.success (dc.brand ++ " ending in " ++ dc.last4 ++ " was deleted" ++
              "\nWarning! You have no default card" ++ " [elapsed]")])
    ∧ (col.defaultCardId ≠ some id →
        (run w sub [id]).calls = [ApiCall.ls, ApiCall.rm id]
        ∧ (run w sub [id]).out =
            [OutLine.success (dc.brand ++ " ending in " ++ dc.last4 ++ " was deleted" ++
              " [elapsed]")]) := by
  refine ⟨fun hdef hrem hls2 hfind2 => ?_, fun hdef hrem => ?_, fun hdef => ?_⟩ <;>
    rcases hsub with h | h <;> subst h <;>
      simp [run, dispatch, applyClose, rmCase, resolveCardId,
        hid, hls, hne, hconf, hrm, hfind, *]

theorem claim_C3_witness :
    (run wConfirm "remove" ["card_a"]).calls =
      [ApiCall.ls, ApiCall.rm "card_a", ApiCall.ls] := by
  have h := claim_C3 wConfirm "remove" "card_a" colAB colB cardA cardB
    (Or.inr rfl) (by decide) rfl (by decide) rfl rfl (by decide)
  exact (h.1 rfl (by decide) rfl (by decide)).1

end Billing

namespace Billing

theorem strAppend_empty (a : String) : a ++ "" = a := by
  apply String.ext
  rw [String.data_append]
  exact List.append_nil a.data

theorem countNL_append (a b : String) : countNL (a ++ b) = countNL a + countNL b := by
  simp [countNL, String.data_append]

/-- Claim C8 counterexample: `cardA` has no `address_line2`, yet its
rendered postal address contains a newline — two lines, not the single
line the claim asserts for that case. -/
theorem claim_C8_counterexample :
    cardA.address_line2 = none
    ∧ countNL (addressText cardA) = 1
    ∧ countNL (addressText cardA) ≠ 0 := by decide

/-- Claim C8 (amended): each card in the list output is rendered as its id
line, the indented cardholder name, the indented brand with the masked
number showing only the last four digits, and the indented postal
address; the "(default)" marker appears exactly when the card id equals
`defaultCardId`; and the address is always formatted as exactly two lines
(one newline), with `address_line2`, when present, appended to the first
line. -/
theorem claim_C8 (col : CardCollection) (card : Card)
    (hl1 : countNL card.address_line1 = 0)
    (hl2 : ∀ s, card.address_line2 = some s → countNL s = 0)
    (hc : countNL card.address_city = 0)
    (hst : ∀ s, card.address_state = some s → countNL s = 0)
    (hz : countNL card.address_zip = 0)
    (hco : countNL card.address_country = 0) :
    lsCardText col card =
      lsIdLine col card ++ "\n" ++ indentStr card.name 2 ++ "\n" ++
        indentStr (card.brand ++ " " ++ numberText card) 2 ++ "\n" ++
        indentStr (addressText card) 2
    ∧ (col.defaultCardId = some card.id →
        lsIdLine col card = "- " ++ "ID: " ++ card.id ++ " (default)")
    ∧ (col.defaultCardId ≠ some card.id →
        lsIdLine col card = "- " ++ "ID: " ++ card.id)
    ∧ numberText card = "#### #### #### " ++ card.last4
    ∧ countNL (addressText card) = 1 := by
  refine ⟨rfl, ?_, ?_, ?_, ?_⟩
  · intro h; simp [lsIdLine, h]
  · intro h; simp [lsIdLine, h, strAppend_empty]
  · have h3 : strRepeat "#### " 3 = "#### #### #### " := by decide
    simp [numberText, h3]
  · have e1 : countNL ", " = 0 := by decide
    have e2 : countNL "." = 0 := by decide
    have e3 : countNL "\n" = 1 := by decide
    have e4 : countNL ". " = 0 := by decide
    have e5 : countNL "" = 0 := by decide
    rcases h2 : card.address_line2 with _ | l2 <;>
      rcases hs : card.address_state with _ | st
    · simp [addressText, countNL_append, h2, hs, hl1, hc, hz, hco, e1, e2, e3, e4, e5]
    · have es := hst st hs
      simp [addressText, countNL_append, h2, hs, hl1, hc, hz, hco, es, e1, e2, e3, e4, e5]
    · have el := hl2 l2 h2
      simp [addressText, countNL_append, h2, hs, hl1, hc, hz, hco, el, e1, e2, e3, e4, e5]
    · have el := hl2 l2 h2
      have es := hst st hs
      simp [addressText, countNL_append, h2, hs, hl1, hc, hz, hco, el, es, e1, e2, e3, e4, e5]

theorem claim_C8_witness :
    lsIdLine colAB cardA = "- " ++ "ID: " ++ "card_a" ++ " (default)"
    ∧ numberText cardA = "#### #### #### " ++ "4242"
    ∧ countNL (addressText cardA) = 1 := by
  have h := claim_C8 colAB cardA (by decide) (by intro s hs; cases hs) (by decide)
    (by intro s hs; injection hs with h1; subst h1; decide) (by decide) (by decide)
  exact ⟨h.2.1 rfl, h.2.2.2.1, h.2.2.2.2⟩

/-- Claim C9: `buildInquirerChoices` returns one choice per card, in
order, whose `value` and `short` are the id of that card and whose label
carries the "(default)" marker exactly when the id of the card equals
`defaultCardId`; consequently every choice value — hence any completed
selection — is the id of a card in the fetched collection. -/
theorem claim_C9 (cards : CardCollection) :
    List.Forall₂ (fun (card : Card) (ch : Choice) =>
        ch.value = card.id ∧ ch.short = card.id
        ∧ (cards.defaultCardId = some card.id →
            ch.name = "ID: " ++ card.id ++ " (default)" ++ "\n" ++ indentStr card.name 2 ++
              "\n" ++ indentStr (card.brand ++ " " ++ numberText card) 2)
        ∧ (cards.defaultCardId ≠ some card.id →
            ch.name = "ID: " ++ card.id ++ "\n" ++ indentStr card.name 2 ++
              "\n" ++ indentStr (card.brand ++ " " ++ numberText card) 2))
      cards.cards (buildInquirerChoices cards)
    ∧ (∀ ch, ch ∈ buildInquirerChoices cards →
        ∃ card, card ∈ cards.cards ∧ ch.value = card.id) := by
  constructor
  · rw [buildInquirerChoices]
    rw [List.forall₂_map_right_iff]
    rw [List.forall₂_same]
    intro card hmem
    refine ⟨rfl, rfl, ?_, ?_⟩
    · intro h; simp [h, String.intercalate, String.intercalate.go]
    · intro h; simp [h, String.intercalate, String.intercalate.go, strAppend_empty]
  · intro ch hmem
    rw [buildInquirerChoices] at hmem
    obtain ⟨card, hcard, rfl⟩ := List.mem_map.mp hmem
    exact ⟨card, hcard, rfl⟩

theorem claim_C9_witness :
    ∃ card, card ∈ colAB.cards ∧
      ({ name := "ID: card_a (default)\n  Ann Ard\n  Visa #### #### #### 4242",
         value := "card_a", short := "card_a" } : Choice).value = card.id :=
  (claim_C9 colAB).2 _ (by decide)

end Billing
